import Mathlib

/-!
# Verification of the tahoe-conditions pipeline

Shallow embedding of the core of the `tahoe_conditions` Python package:
the adapter layer (`adapters/`), the fetch/cache/retry layer (`http.py`),
the resort orchestrator (`main.py`), the NWS weather enrichment
(`weather/nws.py`) and the display summarizer (`summarize.py`).

Modelling conventions:
* Python `None`-able values become `Option`; Python `float` becomes `Rat`
  (all values the claims touch are exact decimals); Python `int` counters
  become `Nat` (they arise from digit groups and incrementing counters).
* Code that can raise becomes `Except String`; a `try/except` block becomes
  a `match` on that `Except`.
* Strings are processed as `List Char`.  `str.lower` is modelled on the
  ASCII range (`Char.toLower`), `\s` as the ASCII whitespace class and `\w`
  as alphanumeric-or-underscore: every input in the claims is in that range.
* The concrete regular expressions of the source are modelled by direct
  scanners over `List Char`; where the scanner is greedy without
  backtracking this is noted and justified at the definition.
* External library calls (BeautifulSoup, requests, Playwright, md5, yaml)
  are not code of this repository; they enter the model as explicit
  parameters (e.g. an abstract transport `Nat → TransportResult`, an
  abstract hash `String → String`, an adapter body `Except String _`).
-/

/-! ## Data model (`models.py`, `adapters/base.py`) -/

/-- `models.Operations`: lift and trail operations status.  All fields are
optional; counts are `Nat`. -/
structure Operations where
  open_flag : Option Bool := none
  lifts_open : Option Nat := none
  lifts_scheduled : Option Nat := none
  lifts_total : Option Nat := none
  trails_open : Option Nat := none
  trails_scheduled : Option Nat := none
  trails_total : Option Nat := none
deriving DecidableEq, Repr

/-- `models.Snow`: snow conditions.  `report_updated_at` (a datetime) is
abstracted to a `Nat` timestamp. -/
structure Snow where
  new_snow_24h_in : Option Rat := none
  new_snow_48h_in : Option Rat := none
  base_depth_in : Option Rat := none
  season_total_in : Option Rat := none
  surface : Option String := none
  report_updated_at : Option Nat := none
deriving DecidableEq, Repr

/-- `models.Weather`: current weather from NWS. -/
structure Weather where
  temp_f : Option Rat := none
  wind_mph : Option Rat := none
  wind_gust_mph : Option Rat := none
  short_forecast : Option String := none
  forecast_period_name : Option String := none
deriving DecidableEq, Repr

/-- `models.Sources`: URLs used to fetch data. -/
structure Sources where
  ops_url : String
  weather_points_url : Option String := none
  weather_forecast_url : Option String := none
deriving DecidableEq, Repr

/-- `models.ResortConditions`: the complete published per-resort record.
`fetched_at_utc` (a datetime) is abstracted to a `Nat` timestamp. -/
structure ResortConditions where
  slug : String
  name : String
  fetched_at_utc : Nat
  stale : Bool := false
  sources : Sources
  ops : Operations := {}
  snow : Snow := {}
  weather : Weather := {}
deriving DecidableEq, Repr

/-- `adapters/base.ParseResult`: result of parsing a resort conditions
page. -/
structure ParseResult where
  success : Bool := false
  ops : Operations := {}
  snow : Snow := {}
  error : Option String := none
  needs_headless : Bool := false
deriving DecidableEq, Repr

/-- `models.ResortConfig`: one entry of the resort registry. -/
structure ResortConfig where
  slug : String
  name : String
  kind : String
  source_url : String
  lat : Rat
  lon : Rat
  enabled : Bool := true
deriving DecidableEq, Repr

/-! ## Python string primitives -/

/-- ASCII whitespace, the characters matched by `\s` (and stripped by
`str.strip`) on the inputs considered here. -/
def pyIsSpace (c : Char) : Bool :=
  c = ' ' || c = '\t' || c = '\n' || c = '\r' || c = '\x0b' || c = '\x0c'

/-- `str.strip()`: drop whitespace from both ends. -/
def pyStrip (cs : List Char) : List Char :=
  ((cs.dropWhile pyIsSpace).reverse.dropWhile pyIsSpace).reverse

/-- `str.lower()` on the ASCII range. -/
def pyLower (cs : List Char) : List Char := cs.map Char.toLower

/-- Contiguous-sublist check used to model Python `sub in s`. -/
def listInfix (sub : List Char) : List Char → Bool
  | [] => sub.isEmpty
  | c :: rest => sub.isPrefixOf (c :: rest) || listInfix sub rest

/-- Python `sub in s` (substring containment). -/
def containsSub (hay sub : String) : Bool := listInfix sub.data hay.data

/-- The character class `\w` restricted to ASCII: letter, digit or
underscore. -/
def isWordChar (c : Char) : Bool := c.isAlphanum || c = '_'

/-- Value of a non-empty digit string, most significant first. -/
def digitsToNat (ds : List Char) : Nat :=
  ds.foldl (fun acc c => acc * 10 + (c.toNat - 48)) 0

/-- Scan the decimal-number pattern `\d+(?:\.\d+)?` anchored at the head of
the input; return the value and the remaining input.  The scanner is greedy
without backtracking, which agrees with the regex here: giving back digits
of `\d+` or of the fractional part only ever exposes another digit or a dot,
and no continuation of the surrounding patterns accepts those. -/
def numAt (cs : List Char) : Option (Rat × List Char) :=
  let intPart := cs.span Char.isDigit
  if intPart.1.isEmpty then none
  else
    match intPart.2 with
    | '.' :: rest2 =>
      let fracPart := rest2.span Char.isDigit
      if fracPart.1.isEmpty then
        some ((digitsToNat intPart.1 : Rat), intPart.2)
      else
        some ((digitsToNat intPart.1 : Rat) +
              (digitsToNat fracPart.1 : Rat) / ((10 : Rat) ^ fracPart.1.length),
              fracPart.2)
    | _ => some ((digitsToNat intPart.1 : Rat), intPart.2)

/-! ## `BaseAdapter.parse_inches` (`adapters/base.py`)

The range pattern of the source is, byte for byte,
`(\d+(?:\.\d+)?)\s*[-â€“]\s*(\d+(?:\.\d+)?)`: the character class between
the two numbers consists of the four characters `-` (hyphen), `â` (U+00E2),
`€` (U+20AC) and `“` (U+201C) — the UTF-8 bytes of the en dash `–`
(U+2013) decoded as cp1252.  A true en dash is therefore not in the class.
-/

/-- The separator class `[-â€“]` of the range regex, exactly as in the
source bytes. -/
def isRangeDash (c : Char) : Bool :=
  c = '-' || c = 'â' || c = '€' || c = '“'

/-- The range pattern anchored at the head of the input:
number, `\s*`, one class character, `\s*`, number. -/
def rangeAt (cs : List Char) : Option (Rat × Rat) :=
  match numAt cs with
  | none => none
  | some (lo, r1) =>
    match r1.dropWhile pyIsSpace with
    | [] => none
    | c :: r3 =>
      if isRangeDash c then
        match numAt (r3.dropWhile pyIsSpace) with
        | some (hi, _) => some (lo, hi)
        | none => none
      else none

/-- `re.search` of the range pattern: leftmost position at which the
anchored pattern matches. -/
def searchRange : List Char → Option (Rat × Rat)
  | [] => none
  | c :: rest =>
    match rangeAt (c :: rest) with
    | some p => some p
    | none => searchRange rest

/-- `re.search` of the single-value pattern
`(\d+(?:\.\d+)?)\s*(?:\"|in|inches?)?`: the suffix is entirely optional, so
group 1 is just the leftmost number. -/
def searchNumber : List Char → Option Rat
  | [] => none
  | c :: rest =>
    if c.isDigit then (numAt (c :: rest)).map Prod.fst
    else searchNumber rest

/-- `BaseAdapter.parse_inches`: empty input gives `none`; otherwise the
text is stripped and lowercased, a range match is averaged, else the first
number is returned, else `none`. -/
def parse_inches (text : String) : Option Rat :=
  if text.data.isEmpty then none
  else
    let cs := pyLower (pyStrip text.data)
    match searchRange cs with
    | some (lo, hi) => some ((lo + hi) / 2)
    | none => searchNumber cs

/-! ## `GenericHTMLAdapter._find_open_status` (`adapters/generic_html.py`)

The generic adapter derives the open flag from the lowercased page text and
the operations facts extracted so far.  It checks explicit closed markers,
then explicit open markers, then infers from the open-lift count; the trail
count is never consulted. -/

/-- The explicit closed markers of the generic adapter:
`"resort closed" in text_lower or "mountain closed" in text_lower`. -/
def genericClosedMarker (textLower : String) : Bool :=
  containsSub textLower "resort closed" || containsSub textLower "mountain closed"

/-- The explicit open markers of the generic adapter:
`"resort open" in text_lower or "mountain open" in text_lower`. -/
def genericOpenMarker (textLower : String) : Bool :=
  containsSub textLower "resort open" || containsSub textLower "mountain open"

/-- `GenericHTMLAdapter._find_open_status`. -/
def find_open_status (textLower : String) (ops : Operations) : Option Bool :=
  if genericClosedMarker textLower then some false
  else if genericOpenMarker textLower then some true
  else
    match ops.lifts_open with
    | some n => some (decide (0 < n))
    | none => none

/-- Modelled from the spec: the derived-open-flag policy exactly as claim
C5 states it — (1) an explicit closed/open phrase overrides all else,
(2) else true iff the open-lift count is present and positive,
(3) else inferred from the open-trail count being positive,
(4) else unknown.  Defined for comparison with `find_open_status`, using
the generic adapter's own phrase markers for step (1). -/
def claimedOpenFlagPolicy (textLower : String) (ops : Operations) : Option Bool :=
  if genericClosedMarker textLower then some false
  else if genericOpenMarker textLower then some true
  else
    match ops.lifts_open with
    | some n => some (decide (0 < n))
    | none =>
      match ops.trails_open with
      | some m => some (decide (0 < m))
      | none => none

/-! ## `MtRoseAdapter._count_lifts` (`adapters/mt_rose.py`)

For each known lift name the adapter searches (case-insensitively) for the
pattern `<name>\s+(\w+(?:\s+\w+)*)`; a found lift increments the total, and
increments the open count when the captured status contains `"scheduled"`
or `"open"`.  The model works on the lowercased text, which is equivalent
to `re.IGNORECASE` on the ASCII inputs considered. -/

/-- The known lift names of `MtRoseAdapter.LIFT_NAMES`, lowercased. -/
def mtRoseLiftNames : List String :=
  ["northwest express", "zephyr express", "lakeview express", "wizard",
   "magic", "galena", "chuter", "blazing zephyr"]

/-- The greedy extension `(?:\s+\w+)*` of the status capture: repeatedly
consume a whitespace run followed by a word run.  Greediness is exact here:
the group is at the end of the pattern, so nothing after it can fail. -/
def statusExtension : Nat → List Char → List Char
  | 0, _ => []
  | fuel + 1, cs =>
    let ws := cs.span pyIsSpace
    let w := ws.2.span isWordChar
    if ws.1.isEmpty || w.1.isEmpty then []
    else ws.1 ++ w.1 ++ statusExtension fuel w.2

/-- Anchored match of `<name>\s+(\w+(?:\s+\w+)*)`: the lift name as a
literal prefix, at least one whitespace, then the captured status words.
Returns the captured group. -/
def matchLiftAt (name cs : List Char) : Option (List Char) :=
  match cs.dropPrefix? name with
  | none => none
  | some rest =>
    let ws := rest.span pyIsSpace
    let w := ws.2.span isWordChar
    if ws.1.isEmpty || w.1.isEmpty then none
    else some (w.1 ++ statusExtension w.2.length w.2)

/-- `re.search` of the lift pattern: leftmost matching position. -/
def searchLiftStatus (name : List Char) : List Char → Option (List Char)
  | [] => none
  | c :: rest =>
    match matchLiftAt name (c :: rest) with
    | some s => some s
    | none => searchLiftStatus name rest

/-- `MtRoseAdapter._count_lifts`: returns `(lifts_open, lifts_total)`.
A lift whose status contains `"scheduled"` or `"open"` is counted as open
(the source comment reads: Scheduled to open = will be open = count as
open). -/
def mtRose_count_lifts (text : String) : Option Nat × Option Nat :=
  let lowered := pyLower text.data
  let step := fun (acc : Nat × Nat) (name : String) =>
    match searchLiftStatus name.data lowered with
    | none => acc
    | some status =>
      if listInfix "scheduled".data status || listInfix "open".data status then
        (acc.1 + 1, acc.2 + 1)
      else
        (acc.1, acc.2 + 1)
  let counts := mtRoseLiftNames.foldl step (0, 0)
  if counts.2 = 0 then (none, none) else (some counts.1, some counts.2)

/-! ## `VailResortsAdapter._count_lift_statuses` (`adapters/vail_resorts.py`)

Each lift of the `FR.TerrainStatusFeed` JSON carries a `Status` that is
either numeric (0 closed, 1 open, 2 on-hold, 3 scheduled) or a string. -/

/-- A lift `Status` value from the terrain JSON: numeric or string. -/
inductive JStatus where
  | num (n : Int)
  | str (s : String)
deriving DecidableEq, Repr

/-- The counters dictionary of `_count_lift_statuses`.  The Python key
`"open"` is rendered `open_count` (`open` is reserved in Lean). -/
structure LiftCounts where
  open_count : Nat := 0
  scheduled : Nat := 0
  closed : Nat := 0
  hold : Nat := 0
  total : Nat := 0
deriving DecidableEq, Repr

/-- One iteration of the status loop of `_count_lift_statuses`. -/
def countLiftStep (acc : LiftCounts) (status : JStatus) : LiftCounts :=
  let acc := { acc with total := acc.total + 1 }
  match status with
  | .num n =>
    if n = 1 then { acc with open_count := acc.open_count + 1 }
    else if n = 3 then { acc with scheduled := acc.scheduled + 1 }
    else if n = 2 then { acc with hold := acc.hold + 1 }
    else { acc with closed := acc.closed + 1 }
  | .str s =>
    let t := String.mk (pyLower s.data)
    if t = "open" then { acc with open_count := acc.open_count + 1 }
    else if t = "scheduled" then { acc with scheduled := acc.scheduled + 1 }
    else if t = "on-hold" || t = "on hold" || t = "hold" then
      { acc with hold := acc.hold + 1 }
    else { acc with closed := acc.closed + 1 }

/-- `VailResortsAdapter._count_lift_statuses` over the list of `Status`
values (`lift.get("Status", 0)` of each lift). -/
def count_lift_statuses (lifts : List JStatus) : LiftCounts :=
  lifts.foldl countLiftStep {}

/-- A status counted as open by `_count_lift_statuses`. -/
def isOpenStatus (s : JStatus) : Bool :=
  match s with
  | .num n => n = 1
  | .str t => String.mk (pyLower t.data) = "open"

/-- A status counted as scheduled by `_count_lift_statuses`. -/
def isScheduledStatus (s : JStatus) : Bool :=
  match s with
  | .num n => n = 3
  | .str t => String.mk (pyLower t.data) = "scheduled"

/-- How `VailResortsAdapter.parse` folds the lift counters into
`Operations`: `lifts_open = counts["open"]`, `lifts_scheduled =
counts["scheduled"]`, `lifts_total = counts["total"]`. -/
def vailOpsOfCounts (c : LiftCounts) : Operations :=
  { lifts_open := some c.open_count, lifts_scheduled := some c.scheduled,
    lifts_total := some c.total }

/-- `VailResortsAdapter._count_trail_statuses` over the `IsOpen` booleans
(`trail.get("IsOpen", False)` of each trail of the grooming areas).  Its
counters dictionary is `{"open", "scheduled", "closed", "total"}` (the
unused `hold` field of the shared `LiftCounts` stays 0): trails carry no
scheduled status in the feed, so the scheduled counter is never
incremented. -/
def count_trail_statuses (trails : List Bool) : LiftCounts :=
  trails.foldl
    (fun acc trailIsOpen =>
      let acc := { acc with total := acc.total + 1 }
      if trailIsOpen then { acc with open_count := acc.open_count + 1 }
      else { acc with closed := acc.closed + 1 }) {}

/-- How `VailResortsAdapter.parse` folds the trail counters into
`Operations`: `trails_open = counts["open"]`, `trails_scheduled =
counts["scheduled"]`, `trails_total = counts["total"]`. -/
def vailTrailOpsOfCounts (c : LiftCounts) : Operations :=
  { trails_open := some c.open_count, trails_scheduled := some c.scheduled,
    trails_total := some c.total }

/-! ## `SugarBowlAdapter._count_lift_statuses` (`adapters/sugar_bowl.py`)

For each known lift name the adapter searches (case-insensitively) for
`<name>[^\n]*\n[^\n]*(Open|Scheduled|Closed)`: the lift name, the rest of
its line, a newline, then a status word on the immediately following line.
The greedy `[^\n]*` before the alternation backtracks from the end of that
line, so the captured word is the rightmost of the three words on it.  A
matched lift increments the total and the counter of its captured status
(`open`/`scheduled`/`closed` — the alternation admits nothing else).  The
`if counts["total"] == 0` fallback block of the source computes only local
variables and never writes into the returned counts, so it does not enter
the model.  Matching is modelled on the lowercased text, equivalent to
`re.IGNORECASE` on these ASCII inputs. -/

/-- One word of the Sugar Bowl status alternation `(Open|Scheduled|Closed)`. -/
inductive SBStatus where
  | openW
  | scheduledW
  | closedW
deriving DecidableEq, Repr

/-- The status word starting exactly at the head of the (lowercased)
input, if any.  The three words share no prefix, so at most one fits. -/
def sbStatusAtHead (cs : List Char) : Option SBStatus :=
  if "open".data.isPrefixOf cs then some .openW
  else if "scheduled".data.isPrefixOf cs then some .scheduledW
  else if "closed".data.isPrefixOf cs then some .closedW
  else none

/-- Rightmost status word of a line: the greedy `[^\n]*` before the
alternation gives up characters from the right, so later starting
positions win. -/
def sbLastStatus : List Char → Option SBStatus
  | [] => none
  | c :: rest =>
    match sbLastStatus rest with
    | some s => some s
    | none => sbStatusAtHead (c :: rest)

/-- Anchored match of the Sugar Bowl lift pattern: the name as a literal
prefix, then `[^\n]*\n` (everything up to and including the first newline
— the only way the regex can cross it), then the rightmost status word of
the following line. -/
def sbMatchAt (name cs : List Char) : Option SBStatus :=
  match cs.dropPrefix? name with
  | none => none
  | some r =>
    match r.dropWhile (fun c => c ≠ '\n') with
    | [] => none
    | _ :: afterNewline =>
      sbLastStatus (afterNewline.takeWhile (fun c => c ≠ '\n'))

/-- `re.search` of the Sugar Bowl lift pattern: leftmost name occurrence
whose following line carries a status word. -/
def searchSBStatus (name : List Char) : List Char → Option SBStatus
  | [] => none
  | c :: rest =>
    match sbMatchAt name (c :: rest) with
    | some s => some s
    | none => searchSBStatus name rest

/-- The known lift names of `SugarBowlAdapter._count_lift_statuses`,
lowercased. -/
def sugarBowlLiftNames : List String :=
  ["mt. judah express", "jerome hill express", "mt. lincoln express",
   "christmas tree express", "mt. disney express", "nob hill",
   "white pine", "summit chair", "gondola", "flume carpet", "crow\x27s peak"]

/-- One iteration of the Sugar Bowl name loop: a found lift increments the
total and the counter of its status; an unmatched name leaves the counts
unchanged. -/
def sugarBowlCountStep (acc : LiftCounts) (st : Option SBStatus) : LiftCounts :=
  match st with
  | none => acc
  | some .openW =>
    { acc with open_count := acc.open_count + 1, total := acc.total + 1 }
  | some .scheduledW =>
    { acc with scheduled := acc.scheduled + 1, total := acc.total + 1 }
  | some .closedW =>
    { acc with closed := acc.closed + 1, total := acc.total + 1 }

/-- `SugarBowlAdapter._count_lift_statuses` over the page text. -/
def sugar_bowl_count_lift_statuses (text : String) : LiftCounts :=
  let lowered := pyLower text.data
  sugarBowlLiftNames.foldl
    (fun acc name => sugarBowlCountStep acc (searchSBStatus name.data lowered)) {}

/-- How `SugarBowlAdapter.parse` folds the lift counters into `Operations`
when `counts["total"] > 0`: `lifts_open = counts["open"]`,
`lifts_scheduled = counts["scheduled"]`, `lifts_total = counts["total"]`. -/
def sugarBowlOpsOfCounts (c : LiftCounts) : Operations :=
  { lifts_open := some c.open_count, lifts_scheduled := some c.scheduled,
    lifts_total := some c.total }

/-! ## Display availability (`summarize.py`, `main.py`)

`generate_blurb` (and the orchestrator's log line) compute the displayed
lift availability as `(ops.lifts_open or 0) + (ops.lifts_scheduled or 0)`,
and likewise for trails. -/

/-- The display-oriented available-lift count of `generate_blurb`. -/
def lifts_available (ops : Operations) : Nat :=
  ops.lifts_open.getD 0 + ops.lifts_scheduled.getD 0

/-- The display-oriented available-trail count of `generate_blurb`. -/
def trails_available (ops : Operations) : Nat :=
  ops.trails_open.getD 0 + ops.trails_scheduled.getD 0

/-! ## The adapter set and its robustness wrapper (`adapters/*.py`)

Every concrete adapter's `parse` has the same literal shape:

    result = ParseResult()        # success=False, error=None
    try:
        ... extract ops, snow from the markup ...
        result.ops = ops; result.snow = snow
        result.success = <adapter-specific condition>
        if not result.success: result.error = <adapter-specific message>
    except Exception as e:
        result.error = str(e)
    return result

(for the adapters that always report success on a clean run the condition
is the constant true and the `if` is absent).  The body of the `try` —
BeautifulSoup, regex and JSON work on the markup — is abstracted as a value
of `Except String (Operations × Snow)`: `Except.error e` is the body
raising an exception whose `str` is `e`.  The assignments after the body
cannot raise, so an exception leaves `result.ops`/`result.snow` at their
defaults.  `PlaceholderHeadlessAdapter.parse` has no `try` and returns a
fixed failed result with `needs_headless=True`. -/

/-- The adapter classes of `adapters/registry.ADAPTER_REGISTRY`. -/
inductive AdapterKind where
  | generic
  | boreal
  | diamond_peak
  | homewood
  | mt_rose
  | palisades
  | sierra_at_tahoe
  | sugar_bowl
  | tahoe_donner
  | vail_resorts
  | placeholder_headless
deriving DecidableEq, Repr

/-- The adapter-specific success condition evaluated at the end of a clean
`try` body. -/
def adapterSuccess : AdapterKind → Operations → Snow → Bool
  | .generic, ops, snow => ops.lifts_open.isSome || snow.new_snow_24h_in.isSome
  | .boreal, ops, snow =>
      ops.lifts_open.isSome || ops.trails_open.isSome || snow.base_depth_in.isSome
  | .tahoe_donner, ops, snow =>
      ops.lifts_open.isSome || ops.trails_open.isSome || snow.base_depth_in.isSome
  | .palisades, ops, _ => ops.lifts_open.isSome || ops.trails_open.isSome
  | .placeholder_headless, _, _ => false
  | _, _, _ => true

/-- The adapter-specific diagnostic attached when the success condition
fails on a clean run. -/
def adapterFailMsg : AdapterKind → String
  | .generic => "Could not extract meaningful data"
  | .palisades => "Could not extract lift/trail data from rendered page"
  | .placeholder_headless =>
      "This resort requires JavaScript rendering (headless browser)"
  | _ => "Could not extract conditions data from rendered page"

/-- `parse` of the adapter `k` applied to a markup whose `try`-body
behaviour is `body` (see the section comment). -/
def adapterParse (k : AdapterKind) (body : Except String (Operations × Snow)) :
    ParseResult :=
  match k with
  | .placeholder_headless =>
    { success := false, needs_headless := true,
      error := some (adapterFailMsg .placeholder_headless) }
  | _ =>
    match body with
    | .error e => { error := some e }
    | .ok (ops, snow) =>
      if adapterSuccess k ops snow then
        { success := true, ops := ops, snow := snow }
      else
        { success := false, ops := ops, snow := snow,
          error := some (adapterFailMsg k) }

/-! ## Adapter registry (`adapters/registry.py`) -/

/-- `adapters/registry.ADAPTER_REGISTRY`: kind name to adapter class. -/
def ADAPTER_REGISTRY : List (String × AdapterKind) :=
  [("generic", .generic),
   ("boreal", .boreal),
   ("diamond_peak", .diamond_peak),
   ("homewood", .homewood),
   ("mt_rose", .mt_rose),
   ("palisades", .palisades),
   ("sierra_at_tahoe", .sierra_at_tahoe),
   ("sugar_bowl", .sugar_bowl),
   ("tahoe_donner", .tahoe_donner),
   ("vail_resorts", .vail_resorts),
   ("placeholder_headless", .placeholder_headless)]

/-- `adapters/registry.get_adapter`: unknown kinds fall back to the
generic adapter (with a warning). -/
def get_adapter (kind : String) : AdapterKind :=
  match ADAPTER_REGISTRY.lookup kind with
  | some a => a
  | none => .generic

/-- `adapters/registry.HEADLESS_ADAPTERS`: kinds that require the
Playwright headless browser. -/
def HEADLESS_ADAPTERS : List String :=
  ["boreal", "palisades", "tahoe_donner", "placeholder_headless"]

/-- `adapters/registry.requires_headless`. -/
def requires_headless (kind : String) : Bool := HEADLESS_ADAPTERS.contains kind

/-! ## Fetch layer (`http.py`, `config.py`)

The underlying transport (`requests.get`) is abstracted as a function from
the call index (how many transport calls were made before) to an outcome;
time is a `Nat` instant, the md5 url hash an abstract `String → String`.
Rate limiting (`_rate_limit`) only sleeps and is invisible to the
properties modelled here. -/

/-- `config.MAX_RETRIES`. -/
def MAX_RETRIES : Nat := 3

/-- Outcome of one call to the underlying transport: an HTTP response with
a status code and body, or a network-level failure
(a `requests.RequestException` with no response). -/
inductive TransportResult where
  | resp (status : Nat) (body : String)
  | netErr (msg : String)
deriving DecidableEq, Repr

/-- The body of `_fetch_with_retry` for one attempt: perform the request;
a 5xx status raises `RequestException` (making the attempt fail), any
other response is returned. -/
def requestOnce (t : Nat → TransportResult) (i : Nat) :
    Except String (Nat × String) :=
  match t i with
  | .netErr m => .error m
  | .resp s b => if 500 ≤ s ∧ s < 600 then .error "Server error" else .ok (s, b)

/-- The tenacity retry loop around `_fetch_with_retry`
(`stop_after_attempt(MAX_RETRIES)`, retry on `RequestException`,
`reraise=True`): `i` is the index of the next transport call, the `Nat`
argument the remaining attempt budget.  Returns the final outcome and the
number of transport calls issued. -/
def fetch_with_retry_count (t : Nat → TransportResult) :
    Nat → Nat → Except String (Nat × String) × Nat
  | _, 0 => (.error "no attempts", 0)
  | i, 1 => (requestOnce t i, 1)
  | i, fuel + 2 =>
    match requestOnce t i with
    | .ok r => (.ok r, 1)
    | .error _ =>
      let rest := fetch_with_retry_count t (i + 1) (fuel + 1)
      (rest.1, rest.2 + 1)

/-- `_fetch_with_retry` as called by `fetch`/`fetch_json`: a fresh retry
loop starting at transport call 0 with the full attempt budget. -/
def fetch_with_retry (t : Nat → TransportResult) :
    Except String (Nat × String) × Nat :=
  fetch_with_retry_count t 0 MAX_RETRIES

/-- A cache file: its mtime (write instant) and stored body. -/
structure CacheEntry where
  mtime : Nat
  body : String
deriving DecidableEq, Repr

/-- The cache directory, as a map from file path to entry. -/
abbrev CacheStore := String → Option CacheEntry

/-- `_get_cache_path`: date bucket, then the (abstract) url hash, then the
caller suffix.  The md5 hash itself is an external library call and is
passed in by the caller of `fetch`. -/
def get_cache_path (dateKey urlHash suffix : String) : String :=
  dateKey ++ "_" ++ urlHash ++ suffix ++ ".cache"

/-- `_read_cache`: a missing entry is a miss; an entry older than the TTL
is a miss; otherwise the stored body is returned.  (An OS-level read error
also yields a miss in the source; the model has no failing reads.) -/
def read_cache (entry : Option CacheEntry) (now ttl_seconds : Nat) :
    Option String :=
  match entry with
  | none => none
  | some e => if now - e.mtime > ttl_seconds then none else some e.body

/-- What a call to `fetch` produced: its result (`Except.error` is a raised
`FetchError`), the cache directory afterwards, and the number of transport
calls issued. -/
structure FetchOutcome where
  result : Except String String
  store : CacheStore
  calls : Nat

/-- `http.fetch`: try the cache, else run the retry loop, raise `FetchError`
on transport failure or on `raise_for_status` (any 4xx/5xx response), else
cache the body best-effort (`cacheWriteOk` is whether the best-effort write
succeeds) and return it. -/
def fetch (md5hash : String → String) (dateKey : String) (store : CacheStore)
    (now : Nat) (t : Nat → TransportResult) (cacheWriteOk : Bool)
    (url : String) (ttl_seconds : Nat) (cache_key_suffix : String)
    (use_cache : Bool) : FetchOutcome :=
  let path := get_cache_path dateKey (md5hash url) cache_key_suffix
  let cached := if use_cache then read_cache (store path) now ttl_seconds else none
  match cached with
  | some body => { result := .ok body, store := store, calls := 0 }
  | none =>
    match fetch_with_retry t with
    | (.ok (s, b), n) =>
      if 400 ≤ s ∧ s < 600 then
        { result := .error "FetchError", store := store, calls := n }
      else
        let store2 : CacheStore :=
          if use_cache && cacheWriteOk then
            fun k => if k = path then some { mtime := now, body := b } else store k
          else store
        { result := .ok b, store := store2, calls := n }
    | (.error _, n) => { result := .error "FetchError", store := store, calls := n }

/-! ## Resort orchestrator (`main.py`)

`process_resort` is modelled against an environment carrying the behaviour
of its collaborators for this resort and run: Playwright availability, the
outcome of the plain and of the headless fetch (`Except.error` is a raised
`FetchError`), the resolved adapter's `parse` as a function of the fetched
markup, the last-known-good record on disk (`load_existing_resort`), the
weather triple, and the run timestamp.  Besides the record, the model
returns whether `load_existing_resort` was called, so that consulting the
last-known-good store is observable. -/

/-- Collaborator behaviour for one `process_resort` invocation. -/
structure OrchestratorEnv where
  has_playwright : Bool
  fetch_result : Except String String
  fetch_headless_result : Except String String
  adapter_result : String → ParseResult
  existing : Option ResortConditions
  weather_result : Weather × String × Option String
  now : Nat

/-- The `try` block of `main.process_resort`: produces the stale flag, the
operations and snow facts, and whether the last-known-good store was
consulted; `Except.error` is a `FetchError` escaping to the handler. -/
def process_resort_try (cfg : ResortConfig) (env : OrchestratorEnv) :
    Except String (Bool × Operations × Snow × Bool) :=
  if requires_headless cfg.kind ∧ env.has_playwright = false then
    -- html is None: marked stale, no parse, no last-known-good lookup
    .ok (true, {}, {}, false)
  else
    (if requires_headless cfg.kind then env.fetch_headless_result
     else env.fetch_result).bind fun html =>
      let result := env.adapter_result html
      if result.success then .ok (false, result.ops, result.snow, false)
      else
        -- parse failed: stale, carry last-known-good forward if present
        match env.existing with
        | some prev => .ok (true, prev.ops, prev.snow, true)
        | none => .ok (true, {}, {}, true)

/-- `main.process_resort`.  The first component is the assembled record,
the second whether the last-known-good store was consulted. -/
def process_resort (cfg : ResortConfig) (env : OrchestratorEnv) :
    ResortConditions × Bool :=
  let folded :=
    match process_resort_try cfg env with
    | .ok r => r
    | .error _ =>
      -- except FetchError: stale, carry last-known-good forward if present
      match env.existing with
      | some prev => (true, prev.ops, prev.snow, true)
      | none => (true, {}, {}, true)
  let weather := env.weather_result
  ({ slug := cfg.slug, name := cfg.name, fetched_at_utc := env.now,
     stale := folded.1,
     sources := { ops_url := cfg.source_url,
                  weather_points_url := some weather.2.1,
                  weather_forecast_url := weather.2.2 },
     ops := folded.2.1, snow := folded.2.2.1, weather := weather.1 },
   folded.2.2.2)

/-- The per-resort loop of `main.update_command`: any exception escaping
`process_resort` for one resort (injected here as `crash cfg = some msg`)
is caught at the per-resort boundary and replaced by a stale placeholder
record; processing then continues with the next resort. -/
def update_records (cfgs : List ResortConfig)
    (envOf : ResortConfig → OrchestratorEnv)
    (crash : ResortConfig → Option String) : List ResortConditions :=
  cfgs.map fun cfg =>
    match crash cfg with
    | some _ =>
      { slug := cfg.slug, name := cfg.name,
        fetched_at_utc := (envOf cfg).now, stale := true,
        sources := { ops_url := cfg.source_url } }
    | none => (process_resort cfg (envOf cfg)).1

/-! ## Weather enrichment (`weather/nws.py`)

`fetch_json` results enter the model as an environment: the points lookup
outcome and, per forecast URL, the forecast outcome (`Except.error` is a
raised `FetchError`).  The JSON documents are modelled with exactly the
fields the source reads; `temperature` keeps the dynamic typing of JSON
(number or string), since `fetch_weather` converts it with `float(...)`
whose failure is not a `FetchError`. -/

/-- A JSON `temperature` value: a number, or (malformed upstream data) a
string. -/
inductive JTemp where
  | num (x : Rat)
  | str (s : String)
deriving DecidableEq, Repr

/-- One entry of `properties.periods` of the forecast document, with the
fields the source reads and their `dict.get` defaults. -/
structure ForecastPeriod where
  temperature : Option JTemp := none
  temperatureUnit : String := "F"
  windSpeed : Option String := none
  shortForecast : Option String := none
  name : Option String := none
deriving DecidableEq, Repr

/-- The points document: `properties.get("forecast")`. -/
structure PointsDoc where
  forecast : Option String := none
deriving DecidableEq, Repr

/-- The forecast document: `properties.get("periods", [])`. -/
structure ForecastDoc where
  periods : List ForecastPeriod := []
deriving DecidableEq, Repr

/-- Behaviour of the two `fetch_json` steps for one `fetch_weather` call. -/
structure NwsEnv where
  points_result : Except String PointsDoc
  forecast_result : String → Except String ForecastDoc

/-- Python `float(str)` on the forms used here: optional sign and a
decimal literal (`d+`, `d+.`, `d+.d+` or `.d+`), surrounded by optional
whitespace.  (Exponent, infinity and nan spellings are not modelled; no
input here uses them.) -/
def pyFloatOfString (s : String) : Option Rat :=
  let cs := pyStrip s.data
  let signed : Rat × List Char :=
    match cs with
    | '+' :: r => (1, r)
    | '-' :: r => (-1, r)
    | r => (1, r)
  let body := signed.2
  let intPart := body.span Char.isDigit
  match intPart.2 with
  | [] => if intPart.1.isEmpty then none
          else some (signed.1 * (digitsToNat intPart.1 : Rat))
  | '.' :: r =>
    let fracPart := r.span Char.isDigit
    if fracPart.2.isEmpty = false then none
    else if intPart.1.isEmpty && fracPart.1.isEmpty then none
    else
      some (signed.1 * ((digitsToNat intPart.1 : Rat) +
        (digitsToNat fracPart.1 : Rat) / ((10 : Rat) ^ fracPart.1.length)))
  | _ => none

/-- The temperature handling of `fetch_weather`:

    if temp_unit == "C": temp = temp * 9 / 5 + 32
    weather.temp_f = float(temp)

A numeric temperature converts cleanly.  A string temperature with unit
`"C"` raises `TypeError` (`str * int` is repetition, then `str / int`
fails); with any other unit `float(str)` parses the string or raises
`ValueError`.  These exceptions are not `FetchError` and escape. -/
def convert_temp (temp : JTemp) (unit : String) : Except String Rat :=
  match temp with
  | .num x => .ok (if unit = "C" then x * 9 / 5 + 32 else x)
  | .str s =>
    if unit = "C" then .error "TypeError"
    else
      match pyFloatOfString s with
      | some x => .ok x
      | none => .error "ValueError"

/-- Anchored match of the wind-speed pattern
`(\d+)\s*(?:to\s*(\d+))?\s*mph` (case already lowered): the value is group
2 when the optional `to N` part matches with `mph` after it, else group 1
with `mph` directly after.  This is the regex backtracking order: the
optional group is tried first and given up if the rest fails. -/
def windAt (cs : List Char) : Option Rat :=
  let d := cs.span Char.isDigit
  if d.1.isEmpty then none
  else
    let withTo : Option Rat :=
      match (d.2.dropWhile pyIsSpace).dropPrefix? "to".data with
      | none => none
      | some r2 =>
        let d2 := (r2.dropWhile pyIsSpace).span Char.isDigit
        if d2.1.isEmpty then none
        else if "mph".data.isPrefixOf (d2.2.dropWhile pyIsSpace) then
          some (digitsToNat d2.1 : Rat)
        else none
    match withTo with
    | some v => some v
    | none =>
      if "mph".data.isPrefixOf (d.2.dropWhile pyIsSpace) then
        some (digitsToNat d.1 : Rat)
      else none

/-- `re.search` of the wind-speed pattern: leftmost matching position. -/
def searchWind : List Char → Option Rat
  | [] => none
  | c :: rest =>
    match windAt (c :: rest) with
    | some v => some v
    | none => searchWind rest

/-- Continuation of the gust pattern after the `gust(?:ing|s)?` head:
`\s*(?:to\s*)?(\d+)\s*mph`, with the optional `to` tried first. -/
def gustCont (r : List Char) : Option Rat :=
  let r1 := r.dropWhile pyIsSpace
  let tryNum := fun (rr : List Char) =>
    let d := rr.span Char.isDigit
    if d.1.isEmpty then none
    else if "mph".data.isPrefixOf (d.2.dropWhile pyIsSpace) then
      some ((digitsToNat d.1 : Nat) : Rat)
    else none
  match r1.dropPrefix? "to".data with
  | some r2 =>
    match tryNum (r2.dropWhile pyIsSpace) with
    | some v => some v
    | none => tryNum r1
  | none => tryNum r1

/-- Anchored match of the gust pattern
`gust(?:ing|s)?\s*(?:to\s*)?(\d+)\s*mph` (case already lowered), with the
regex alternation order `ing`, then `s`, then the empty option. -/
def gustAt (cs : List Char) : Option Rat :=
  match cs.dropPrefix? "gust".data with
  | none => none
  | some r =>
    match (r.dropPrefix? "ing".data).bind gustCont with
    | some v => some v
    | none =>
      match (r.dropPrefix? "s".data).bind gustCont with
      | some v => some v
      | none => gustCont r

/-- `re.search` of the gust pattern: leftmost matching position. -/
def searchGust : List Char → Option Rat
  | [] => none
  | c :: rest =>
    match gustAt (c :: rest) with
    | some v => some v
    | none => searchGust rest

/-- `weather/nws._parse_wind`: `(wind_mph, wind_gust_mph)` parsed from the
free-text wind string; `None` or an empty string yields `(None, None)`.
Matching is on the lowered text (the source passes `re.IGNORECASE`). -/
def parse_wind (wind_str : Option String) : Option Rat × Option Rat :=
  match wind_str with
  | none => (none, none)
  | some w =>
    if w.data.isEmpty then (none, none)
    else
      let cs := pyLower w.data
      (searchWind cs, searchGust cs)

/-- `NWS_POINTS_URL.format(lat=lat, lon=lon)`.  Python float formatting is
abstracted by a fraction rendering; the claims only compare resolved URLs
for identity. -/
def nws_points_url (lat lon : Rat) : String :=
  "https://api.weather.gov/points/" ++ toString lat.num ++ "d" ++
    toString lat.den ++ "," ++ toString lon.num ++ "d" ++ toString lon.den

/-- `weather/nws.fetch_weather`.  The `try` covers both `fetch_json` steps
and the period extraction, but `except` catches only `FetchError`; a
`TypeError`/`ValueError` from the temperature conversion escapes, which the
`Except.error` result of this model records. -/
def fetch_weather (env : NwsEnv) (lat lon : Rat) :
    Except String (Weather × String × Option String) :=
  let points_url := nws_points_url lat lon
  match env.points_result with
  | .error _ => .ok ({}, points_url, none)
  | .ok points =>
    match points.forecast with
    | none => .ok ({}, points_url, none)
    | some forecast_url =>
      match env.forecast_result forecast_url with
      | .error _ => .ok ({}, points_url, some forecast_url)
      | .ok doc =>
        match doc.periods with
        | [] => .ok ({}, points_url, some forecast_url)
        | current :: _ =>
          let tempStep : Except String (Option Rat) :=
            match current.temperature with
            | none => .ok none
            | some tv => (convert_temp tv current.temperatureUnit).map some
          match tempStep with
          | .error e => .error e
          | .ok temp_f =>
            let wind := parse_wind current.windSpeed
            .ok ({ temp_f := temp_f, wind_mph := wind.1,
                   wind_gust_mph := wind.2,
                   short_forecast := current.shortForecast,
                   forecast_period_name := current.name },
                 points_url, some forecast_url)

/-! ## Concrete fixtures

Closed instances used by counterexample and witness theorems below. -/

/-- A previously published record for the slug `boreal` with a known open
lift count. -/
def prevRecordFx : ResortConditions :=
  { slug := "boreal", name := "Boreal", fetched_at_utc := 0, stale := false,
    sources := { ops_url := "u" }, ops := { lifts_open := some 5 } }

/-- A resort configured with a rendering-required kind. -/
def headlessCfgFx : ResortConfig :=
  { slug := "boreal", name := "Boreal", kind := "boreal", source_url := "u",
    lat := 0, lon := 0 }

/-- Environment: Playwright unavailable, previously published record on
disk. -/
def headlessEnvFx : OrchestratorEnv :=
  { has_playwright := false, fetch_result := Except.ok "html",
    fetch_headless_result := Except.ok "html",
    adapter_result := fun _ => {}, existing := some prevRecordFx,
    weather_result := ({}, "p", none), now := 1 }

/-- A resort configured with the plain-fetch generic kind. -/
def plainCfgFx : ResortConfig :=
  { slug := "gen", name := "Gen", kind := "generic", source_url := "u",
    lat := 0, lon := 0 }

/-- Environment: the plain fetch raises `FetchError`; a previously
published record exists. -/
def fetchFailEnvFx : OrchestratorEnv :=
  { has_playwright := true, fetch_result := Except.error "FetchError",
    fetch_headless_result := Except.ok "x",
    adapter_result := fun _ => {}, existing := some prevRecordFx,
    weather_result := ({}, "p", none), now := 2 }

/-- NWS behaviour: both protocol steps succeed but the first forecast
period carries a string-typed temperature. -/
def nwsBadEnvFx : NwsEnv :=
  { points_result := Except.ok { forecast := some "f" },
    forecast_result := fun _ =>
      Except.ok { periods := [{ temperature := some (JTemp.str "warm") }] } }

/-- NWS behaviour: the points lookup itself raises `FetchError`. -/
def nwsDownEnvFx : NwsEnv :=
  { points_result := Except.error "FetchError",
    forecast_result := fun _ => Except.error "FetchError" }

/-! # Theorems -/

/-- C1: for every adapter resolvable through the adapter registry
(including the generic fallback for unknown kinds) and every behaviour of
its parse body on the markup, `parse` is a total function into
`ParseResult` (the model, being total, encodes that the catch-all handler
lets no exception escape); whenever the body fails internally (raises),
the returned result has `success = false` and carries a diagnostic error
message. -/
theorem adapter_parse_never_escapes (kind : String)
    (body : Except String (Operations × Snow)) (e : String)
    (h : body = Except.error e) :
    (adapterParse (get_adapter kind) body).success = false ∧
    (adapterParse (get_adapter kind) body).error.isSome = true := by
  subst h
  cases get_adapter kind <;> simp [adapterParse, adapterFailMsg]

/-- Witness for C1 at the Mt Rose adapter and a body raising `boom`. -/
theorem adapter_parse_never_escapes_witness :
    (adapterParse (get_adapter "mt_rose") (Except.error "boom")).success = false ∧
    (adapterParse (get_adapter "mt_rose") (Except.error "boom")).error.isSome = true :=
  adapter_parse_never_escapes "mt_rose" (Except.error "boom") "boom" rfl

/-- C9: for every adapter resolvable through the registry and every
behaviour of its parse body, the returned `ParseResult` satisfies the
invariant that the error description is present exactly when the success
flag is false. -/
theorem parse_result_error_iff_failure (kind : String)
    (body : Except String (Operations × Snow)) :
    (adapterParse (get_adapter kind) body).error.isSome =
      !(adapterParse (get_adapter kind) body).success := by
  rcases body with e | ⟨ops, snow⟩ <;>
    cases get_adapter kind <;>
      simp [adapterParse] <;> split <;> simp

/-- C5 (amended): in the generic adapter, an explicit closed phrase forces
the open flag to false regardless of the extracted counts, otherwise an
explicit open phrase forces it to true, and otherwise the flag is exactly
the positivity of the open-lift count when that count is present and
unknown when it is absent — the open-trail count is never consulted. -/
theorem generic_open_flag_priority (textLower : String) (ops : Operations) :
    (genericClosedMarker textLower = true →
      find_open_status textLower ops = some false) ∧
    (genericClosedMarker textLower = false → genericOpenMarker textLower = true →
      find_open_status textLower ops = some true) ∧
    (genericClosedMarker textLower = false → genericOpenMarker textLower = false →
      find_open_status textLower ops =
        ops.lifts_open.map (fun n => decide (0 < n))) := by
  refine ⟨fun h1 => ?_, fun h1 h2 => ?_, fun h1 h2 => ?_⟩ <;>
    simp [find_open_status, h1]
  · simp [h2]
  · simp [h2]
    cases ops.lifts_open <;> simp

/-- Witness for C5: a closed phrase overrides a positive lift count. -/
theorem generic_open_flag_priority_witness :
    find_open_status "mountain closed" { lifts_open := some 4 } = some false :=
  (generic_open_flag_priority "mountain closed" { lifts_open := some 4 }).1
    (by decide)

/-- C5 counterexample: on a page with an open-trail count but no lift
count and no explicit phrase, the generic adapter leaves the open flag
unknown, while the claimed priority policy infers true from the trail
count — the claim fails at step (3). -/
theorem generic_open_flag_ignores_trails :
    find_open_status "snow report" { trails_open := some 5 } = none ∧
    claimedOpenFlagPolicy "snow report" { trails_open := some 5 } = some true := by
  decide

/-- One step of the Vail status loop, per counter field. -/
theorem countLiftStep_fields (acc : LiftCounts) (s : JStatus) :
    (countLiftStep acc s).open_count =
      acc.open_count + (if isOpenStatus s then 1 else 0) ∧
    (countLiftStep acc s).scheduled =
      acc.scheduled + (if isScheduledStatus s then 1 else 0) ∧
    (countLiftStep acc s).total = acc.total + 1 := by
  cases s <;>
    (simp only [countLiftStep, isOpenStatus, isScheduledStatus];
      split_ifs <;> simp_all)

/-- The Vail status fold, per counter field, over any accumulator. -/
theorem countLift_foldl (lifts : List JStatus) (acc : LiftCounts) :
    (lifts.foldl countLiftStep acc).open_count =
      acc.open_count + lifts.countP (fun s => isOpenStatus s) ∧
    (lifts.foldl countLiftStep acc).scheduled =
      acc.scheduled + lifts.countP (fun s => isScheduledStatus s) ∧
    (lifts.foldl countLiftStep acc).total = acc.total + lifts.length := by
  induction lifts generalizing acc with
  | nil => simp
  | cons s rest ih =>
    obtain ⟨h1, h2, h3⟩ := countLiftStep_fields acc s
    obtain ⟨g1, g2, g3⟩ := ih (countLiftStep acc s)
    refine ⟨?_, ?_, ?_⟩ <;>
      simp only [List.foldl_cons, List.countP_cons, List.length_cons, g1, g2, g3,
        h1, h2, h3]
    · by_cases h : isOpenStatus s = true <;> (simp [h]; try omega)
    · by_cases h : isScheduledStatus s = true <;> (simp [h]; try omega)
    · omega

/-- One step of the Vail trail loop, per counter field, over any
accumulator. -/
theorem countTrail_foldl (trails : List Bool) (acc : LiftCounts) :
    (trails.foldl
      (fun acc trailIsOpen =>
        let acc := { acc with total := acc.total + 1 }
        if trailIsOpen then { acc with open_count := acc.open_count + 1 }
        else { acc with closed := acc.closed + 1 }) acc).open_count =
      acc.open_count + trails.countP (fun b => b) ∧
    (trails.foldl
      (fun acc trailIsOpen =>
        let acc := { acc with total := acc.total + 1 }
        if trailIsOpen then { acc with open_count := acc.open_count + 1 }
        else { acc with closed := acc.closed + 1 }) acc).scheduled =
      acc.scheduled ∧
    (trails.foldl
      (fun acc trailIsOpen =>
        let acc := { acc with total := acc.total + 1 }
        if trailIsOpen then { acc with open_count := acc.open_count + 1 }
        else { acc with closed := acc.closed + 1 }) acc).total =
      acc.total + trails.length := by
  induction trails generalizing acc with
  | nil => simp
  | cons b rest ih =>
    obtain ⟨g1, g2, g3⟩ := ih
      (let acc := { acc with total := acc.total + 1 }
       if b then { acc with open_count := acc.open_count + 1 }
       else { acc with closed := acc.closed + 1 })
    refine ⟨?_, ?_, ?_⟩ <;>
      simp only [List.foldl_cons, List.countP_cons, List.length_cons, g1, g2, g3]
    · cases b <;> (simp; try omega)
    · cases b <;> simp
    · cases b <;> (simp; try omega)

/-- One step of the Sugar Bowl name loop, per counter field. -/
theorem sugarBowlCountStep_fields (acc : LiftCounts) (st : Option SBStatus) :
    (sugarBowlCountStep acc st).open_count =
      acc.open_count + (if st = some SBStatus.openW then 1 else 0) ∧
    (sugarBowlCountStep acc st).scheduled =
      acc.scheduled + (if st = some SBStatus.scheduledW then 1 else 0) := by
  rcases st with _ | s
  · simp [sugarBowlCountStep]
  · cases s <;> simp [sugarBowlCountStep]

/-- The Sugar Bowl name fold, per counter field, over any accumulator. -/
theorem sugarBowl_foldl (lowered : List Char) (names : List String)
    (acc : LiftCounts) :
    (names.foldl
      (fun acc name => sugarBowlCountStep acc (searchSBStatus name.data lowered))
      acc).open_count =
      acc.open_count + names.countP
        (fun name => searchSBStatus name.data lowered = some SBStatus.openW) ∧
    (names.foldl
      (fun acc name => sugarBowlCountStep acc (searchSBStatus name.data lowered))
      acc).scheduled =
      acc.scheduled + names.countP
        (fun name => searchSBStatus name.data lowered = some SBStatus.scheduledW) := by
  induction names generalizing acc with
  | nil => simp
  | cons name rest ih =>
    obtain ⟨h1, h2⟩ :=
      sugarBowlCountStep_fields acc (searchSBStatus name.data lowered)
    obtain ⟨g1, g2⟩ := ih
      (sugarBowlCountStep acc (searchSBStatus name.data lowered))
    refine ⟨?_, ?_⟩ <;>
      simp only [List.foldl_cons, List.countP_cons, g1, g2, h1, h2]
    · by_cases h : searchSBStatus name.data lowered = some SBStatus.openW <;>
        (simp [h]; try omega)
    · by_cases h : searchSBStatus name.data lowered = some SBStatus.scheduledW <;>
        (simp [h]; try omega)

/-- C6 (amended): in the Vail Resorts adapter the scheduled lift status is
a distinct counter — `open` counts exactly the open statuses, `scheduled`
exactly the scheduled ones, no status is both, and the display-oriented
available count of the summarizer is their sum; Vail trail counting
likewise keeps `trails_scheduled` as a distinct counter never merged into
`trails_open` (identically zero, the feed reporting trails with an
`IsOpen` boolean), with the displayed availability again the sum; and the
Sugar Bowl adapter's per-lift status counter records `open` and
`scheduled` as exactly the names whose status word is `open` resp.
`scheduled`, never merging them, with the displayed availability their
sum.  The Mt Rose adapter, however, counts scheduled lifts directly into
`lifts_open` (see the counterexample). -/
theorem scheduled_kept_distinct (lifts : List JStatus) (trails : List Bool)
    (text : String) :
    ((count_lift_statuses lifts).open_count =
      lifts.countP (fun s => isOpenStatus s) ∧
    (count_lift_statuses lifts).scheduled =
      lifts.countP (fun s => isScheduledStatus s) ∧
    (count_lift_statuses lifts).total = lifts.length ∧
    (∀ s : JStatus, ¬(isOpenStatus s = true ∧ isScheduledStatus s = true)) ∧
    lifts_available (vailOpsOfCounts (count_lift_statuses lifts)) =
      lifts.countP (fun s => isOpenStatus s) +
        lifts.countP (fun s => isScheduledStatus s)) ∧
    ((count_trail_statuses trails).open_count = trails.countP (fun b => b) ∧
    (count_trail_statuses trails).scheduled = 0 ∧
    (count_trail_statuses trails).total = trails.length ∧
    trails_available (vailTrailOpsOfCounts (count_trail_statuses trails)) =
      trails.countP (fun b => b) + (count_trail_statuses trails).scheduled) ∧
    ((sugar_bowl_count_lift_statuses text).open_count =
      sugarBowlLiftNames.countP
        (fun name => searchSBStatus name.data (pyLower text.data) =
          some SBStatus.openW) ∧
    (sugar_bowl_count_lift_statuses text).scheduled =
      sugarBowlLiftNames.countP
        (fun name => searchSBStatus name.data (pyLower text.data) =
          some SBStatus.scheduledW) ∧
    lifts_available (sugarBowlOpsOfCounts (sugar_bowl_count_lift_statuses text)) =
      sugarBowlLiftNames.countP
        (fun name => searchSBStatus name.data (pyLower text.data) =
          some SBStatus.openW) +
      sugarBowlLiftNames.countP
        (fun name => searchSBStatus name.data (pyLower text.data) =
          some SBStatus.scheduledW)) := by
  refine ⟨?_, ?_, ?_⟩
  · obtain ⟨h1, h2, h3⟩ := countLift_foldl lifts {}
    rw [show ({} : LiftCounts).open_count = 0 from rfl, Nat.zero_add] at h1
    rw [show ({} : LiftCounts).scheduled = 0 from rfl, Nat.zero_add] at h2
    rw [show ({} : LiftCounts).total = 0 from rfl, Nat.zero_add] at h3
    refine ⟨?_, ?_, ?_, ?_, ?_⟩
    · simpa [count_lift_statuses] using h1
    · simpa [count_lift_statuses] using h2
    · simpa [count_lift_statuses] using h3
    · intro s hs
      cases s with
      | num n =>
        have ho := hs.1
        have hsch := hs.2
        simp [isOpenStatus, isScheduledStatus] at ho hsch
        omega
      | str t =>
        have ho := hs.1
        have hsch := hs.2
        simp [isOpenStatus, isScheduledStatus] at ho hsch
        rw [ho] at hsch
        exact absurd hsch (by decide)
    · simp [lifts_available, vailOpsOfCounts, count_lift_statuses, h1, h2]
  · obtain ⟨h1, h2, h3⟩ := countTrail_foldl trails {}
    rw [show ({} : LiftCounts).open_count = 0 from rfl, Nat.zero_add] at h1
    rw [show ({} : LiftCounts).total = 0 from rfl, Nat.zero_add] at h3
    rw [show ({} : LiftCounts).scheduled = 0 from rfl] at h2
    refine ⟨?_, ?_, ?_, ?_⟩
    · simpa [count_trail_statuses] using h1
    · simpa [count_trail_statuses] using h2
    · simpa [count_trail_statuses] using h3
    · simp [trails_available, vailTrailOpsOfCounts, count_trail_statuses, h1, h2]
  · obtain ⟨h1, h2⟩ := sugarBowl_foldl (pyLower text.data) sugarBowlLiftNames {}
    rw [show ({} : LiftCounts).open_count = 0 from rfl, Nat.zero_add] at h1
    rw [show ({} : LiftCounts).scheduled = 0 from rfl, Nat.zero_add] at h2
    refine ⟨?_, ?_, ?_⟩
    · simpa [sugar_bowl_count_lift_statuses] using h1
    · simpa [sugar_bowl_count_lift_statuses] using h2
    · simp [lifts_available, sugarBowlOpsOfCounts, sugar_bowl_count_lift_statuses,
        h1, h2]

/-- Witness for C6: a Vail status list with one open, one numeric
scheduled and one string scheduled; a Vail trail list; and a Sugar Bowl
page naming two lifts, one scheduled and one open on the following
lines. -/
theorem scheduled_kept_distinct_witness :
    (count_lift_statuses
      [JStatus.num 1, JStatus.num 3, JStatus.str "Scheduled"]).open_count = 1 ∧
    (count_lift_statuses
      [JStatus.num 1, JStatus.num 3, JStatus.str "Scheduled"]).scheduled = 2 ∧
    (count_trail_statuses [true, false, true]).open_count = 2 ∧
    (count_trail_statuses [true, false, true]).scheduled = 0 ∧
    (sugar_bowl_count_lift_statuses
      "Summit Chair\nScheduled\nGondola\nOpen").open_count = 1 ∧
    (sugar_bowl_count_lift_statuses
      "Summit Chair\nScheduled\nGondola\nOpen").scheduled = 1 := by
  obtain ⟨⟨v1, v2, -, -, -⟩, ⟨t1, t2, -, -⟩, ⟨s1, s2, -⟩⟩ :=
    scheduled_kept_distinct [JStatus.num 1, JStatus.num 3, JStatus.str "Scheduled"]
      [true, false, true] "Summit Chair\nScheduled\nGondola\nOpen"
  exact ⟨v1.trans (by decide), v2.trans (by decide), t1.trans (by decide),
    t2.trans (by decide), s1.trans (by decide), s2.trans (by decide)⟩

/-- C6 counterexample: Mt Rose merges scheduled into open — a page whose
only matched lift has status `Scheduled` yields `lifts_open = 1` (and no
separate scheduled count exists in that adapter), while the same page with
status `Closed` yields `lifts_open = 0`: the increment is caused by the
scheduled status alone. -/
theorem mtRose_merges_scheduled_into_open :
    mtRose_count_lifts "Northwest Express Scheduled" = (some 1, some 1) ∧
    mtRose_count_lifts "Northwest Express Closed" = (some 0, some 1) := by
  decide

/-- Unfolding of `parse_inches` on non-empty input. -/
theorem parse_inches_nonempty (text : String) (h : text.data.isEmpty = false) :
    parse_inches text =
      match searchRange (pyLower (pyStrip text.data)) with
      | some (lo, hi) => some ((lo + hi) / 2)
      | none => searchNumber (pyLower (pyStrip text.data)) := by
  unfold parse_inches
  rw [h]
  simp

/-- C7 (code bug): hyphen ranges are averaged, but a true en dash is not
in the corrupted separator class of the range regex, so `6–8` (en dash)
falls through to the single-number pattern and yields 6 instead of the
mean 7; the repository's own test input `10â€“15` (the same mojibake as
the regex, but not matched by it either, since the class holds single
characters) yields 10 where the test asserts 12.5.  Empty and non-numeric
input yield none. -/
theorem parse_inches_endash_not_averaged :
    parse_inches "6-8" = some 7 ∧
    parse_inches "6 - 8 in" = some 7 ∧
    parse_inches "6–8" = some 6 ∧
    parse_inches "10â€“15" = some 10 ∧
    parse_inches "abc" = none ∧
    parse_inches "" = none := by
  refine ⟨?_, ?_, by decide, by decide, by decide, by decide⟩
  · have h : searchRange (pyLower (pyStrip "6-8".data)) =
        some ((6 : Rat), (8 : Rat)) := by
      decide
    rw [parse_inches_nonempty "6-8" (by decide), h]
    norm_num
  · have h : searchRange (pyLower (pyStrip "6 - 8 in".data)) =
        some ((6 : Rat), (8 : Rat)) := by
      decide
    rw [parse_inches_nonempty "6 - 8 in" (by decide), h]
    norm_num

/-- C3: with the cache bypassed, a transport that answers 5xx on the first
N-1 calls and then succeeds (N at most `MAX_RETRIES` = 3) makes `fetch`
succeed with exactly N transport calls; a transport that answers 4xx makes
`fetch` issue exactly one transport call and raise `FetchError` (4xx is
returned by `_fetch_with_retry` without retrying and only
`raise_for_status` turns it into the error). -/
theorem fetch_retry_property (md5hash : String → String) (dateKey : String)
    (store : CacheStore) (now : Nat) (cacheWriteOk : Bool)
    (url suffix : String) (ttl : Nat) :
    (∀ (t : Nat → TransportResult) (N s0 : Nat) (b : String),
      1 ≤ N → N ≤ MAX_RETRIES →
      (∀ i, i + 1 < N →
        ∃ si bi, t i = TransportResult.resp si bi ∧ 500 ≤ si ∧ si < 600) →
      t (N - 1) = TransportResult.resp s0 b → s0 < 400 →
      (fetch md5hash dateKey store now t cacheWriteOk url ttl suffix false).result =
        Except.ok b ∧
      (fetch md5hash dateKey store now t cacheWriteOk url ttl suffix false).calls = N) ∧
    (∀ (t : Nat → TransportResult) (c : Nat) (b : String),
      400 ≤ c → c < 500 → t 0 = TransportResult.resp c b →
      (fetch md5hash dateKey store now t cacheWriteOk url ttl suffix false).result =
        Except.error "FetchError" ∧
      (fetch md5hash dateKey store now t cacheWriteOk url ttl suffix false).calls = 1) := by
  constructor
  · intro t N s0 b hN1 hN2 h5 hok hs0
    have hle : N ≤ 3 := hN2
    have hcond : ¬(400 ≤ s0 ∧ s0 < 600) := by omega
    interval_cases N
    · have hr0 : requestOnce t 0 = Except.ok (s0, b) := by
        unfold requestOnce
        rw [show t 0 = TransportResult.resp s0 b from hok]
        exact if_neg (by omega)
      have hfr : fetch_with_retry t = (Except.ok (s0, b), 1) := by
        simp [fetch_with_retry, MAX_RETRIES, fetch_with_retry_count, hr0]
      refine ⟨?_, ?_⟩ <;> simp [fetch, hfr, hcond]
    · obtain ⟨s1, b1, ht0, h51, h52⟩ := h5 0 (by omega)
      have hr0 : requestOnce t 0 = Except.error "Server error" := by
        unfold requestOnce
        rw [ht0]
        exact if_pos (by omega)
      have hr1 : requestOnce t 1 = Except.ok (s0, b) := by
        unfold requestOnce
        rw [show t 1 = TransportResult.resp s0 b from hok]
        exact if_neg (by omega)
      have hfr : fetch_with_retry t = (Except.ok (s0, b), 2) := by
        simp [fetch_with_retry, MAX_RETRIES, fetch_with_retry_count, hr0, hr1]
      refine ⟨?_, ?_⟩ <;> simp [fetch, hfr, hcond]
    · obtain ⟨s1, b1, ht0, h51, h52⟩ := h5 0 (by omega)
      obtain ⟨s2, b2, ht1, h61, h62⟩ := h5 1 (by omega)
      have hr0 : requestOnce t 0 = Except.error "Server error" := by
        unfold requestOnce
        rw [ht0]
        exact if_pos (by omega)
      have hr1 : requestOnce t 1 = Except.error "Server error" := by
        unfold requestOnce
        rw [ht1]
        exact if_pos (by omega)
      have hr2 : requestOnce t 2 = Except.ok (s0, b) := by
        unfold requestOnce
        rw [show t 2 = TransportResult.resp s0 b from hok]
        exact if_neg (by omega)
      have hfr : fetch_with_retry t = (Except.ok (s0, b), 3) := by
        simp [fetch_with_retry, MAX_RETRIES, fetch_with_retry_count, hr0, hr1, hr2]
      refine ⟨?_, ?_⟩ <;> simp [fetch, hfr, hcond]
  · intro t c b hc1 hc2 ht0
    have hr0 : requestOnce t 0 = Except.ok (c, b) := by
      unfold requestOnce
      rw [ht0]
      exact if_neg (by omega)
    have hfr : fetch_with_retry t = (Except.ok (c, b), 1) := by
      simp [fetch_with_retry, MAX_RETRIES, fetch_with_retry_count, hr0]
    have hcond : 400 ≤ c ∧ c < 600 := by omega
    refine ⟨?_, ?_⟩ <;> simp [fetch, hfr, hcond]

/-- Witness for C3: a transport failing once with 503 then answering 200
gives a success in 2 calls; an always-404 transport gives `FetchError` in
1 call. -/
theorem fetch_retry_property_witness :
    (fetch (fun u => u) "d" (fun _ => none) 0
      (fun i => if i = 0 then TransportResult.resp 503 "e"
                else TransportResult.resp 200 "ok")
      true "u" 900 "" false).result = Except.ok "ok" ∧
    (fetch (fun u => u) "d" (fun _ => none) 0
      (fun i => if i = 0 then TransportResult.resp 503 "e"
                else TransportResult.resp 200 "ok")
      true "u" 900 "" false).calls = 2 ∧
    (fetch (fun u => u) "d" (fun _ => none) 0
      (fun _ => TransportResult.resp 404 "nf")
      true "u" 900 "" false).result = Except.error "FetchError" ∧
    (fetch (fun u => u) "d" (fun _ => none) 0
      (fun _ => TransportResult.resp 404 "nf")
      true "u" 900 "" false).calls = 1 := by
  have h1 := (fetch_retry_property (fun u => u) "d" (fun _ => none) 0 true
      "u" "" 900).1
    (fun i => if i = 0 then TransportResult.resp 503 "e"
              else TransportResult.resp 200 "ok")
    2 200 "ok" (by omega) (by decide)
    (by
      intro i hi
      have h0 : i = 0 := by omega
      subst h0
      exact ⟨503, "e", rfl, by omega, by omega⟩)
    rfl (by omega)
  have h2 := (fetch_retry_property (fun u => u) "d" (fun _ => none) 0 true
      "u" "" 900).2
    (fun _ => TransportResult.resp 404 "nf") 404 "nf" (by omega) (by omega) rfl
  exact ⟨h1.1, h1.2, h2.1, h2.2⟩

/-- C4: with caching enabled and a cache entry present under the fetch's
own key (date bucket, url hash and suffix), a fetch whose entry age is at
most the TTL makes no transport call, returns the cached body and leaves
the store unchanged; a fetch whose entry age exceeds the TTL makes exactly
one transport call (the transport succeeding immediately) and overwrites
the entry with the fresh body and the current instant. -/
theorem fetch_cache_ttl_property (md5hash : String → String) (dateKey : String)
    (store : CacheStore) (now : Nat) (t : Nat → TransportResult)
    (url suffix : String) (ttl : Nat) (entry : CacheEntry)
    (hentry : store (get_cache_path dateKey (md5hash url) suffix) = some entry) :
    (now - entry.mtime ≤ ttl →
      ∀ cacheWriteOk,
        fetch md5hash dateKey store now t cacheWriteOk url ttl suffix true =
          { result := Except.ok entry.body, store := store, calls := 0 }) ∧
    (now - entry.mtime > ttl →
      ∀ s b, t 0 = TransportResult.resp s b → s < 400 →
        (fetch md5hash dateKey store now t true url ttl suffix true).calls = 1 ∧
        (fetch md5hash dateKey store now t true url ttl suffix true).result =
          Except.ok b ∧
        (fetch md5hash dateKey store now t true url ttl suffix true).store
            (get_cache_path dateKey (md5hash url) suffix) =
          some { mtime := now, body := b }) := by
  constructor
  · intro hage cacheWriteOk
    have hc : ¬(now - entry.mtime > ttl) := by omega
    simp [fetch, read_cache, hentry, hc]
  · intro hage s b ht0 hs
    have hr0 : requestOnce t 0 = Except.ok (s, b) := by
      unfold requestOnce
      rw [ht0]
      exact if_neg (by omega)
    have hfr : fetch_with_retry t = (Except.ok (s, b), 1) := by
      simp [fetch_with_retry, MAX_RETRIES, fetch_with_retry_count, hr0]
    have hcond : ¬(400 ≤ s ∧ s < 600) := by omega
    refine ⟨?_, ?_, ?_⟩ <;>
      simp [fetch, read_cache, hentry, hage, hfr, hcond]

/-- Witness for C4: a store holding an entry written at instant 5, read at
instant 10 — within a TTL of 100 the cached body is served with 0 calls;
past a TTL of 2 one call is made and the entry is replaced. -/
theorem fetch_cache_ttl_property_witness :
    fetch (fun u => u) "d" (fun _ => some { mtime := 5, body := "cached" }) 10
      (fun _ => TransportResult.resp 200 "fresh") true "u" 100 "" true =
      { result := Except.ok "cached",
        store := fun _ => some { mtime := 5, body := "cached" }, calls := 0 } ∧
    (fetch (fun u => u) "d" (fun _ => some { mtime := 5, body := "cached" }) 10
      (fun _ => TransportResult.resp 200 "fresh") true "u" 2 "" true).calls = 1 ∧
    (fetch (fun u => u) "d" (fun _ => some { mtime := 5, body := "cached" }) 10
      (fun _ => TransportResult.resp 200 "fresh") true "u" 2 "" true).result =
      Except.ok "fresh" ∧
    (fetch (fun u => u) "d" (fun _ => some { mtime := 5, body := "cached" }) 10
      (fun _ => TransportResult.resp 200 "fresh") true "u" 2 "" true).store
        (get_cache_path "d" "u" "") = some { mtime := 10, body := "fresh" } := by
  have h1 := (fetch_cache_ttl_property (fun u => u) "d"
      (fun _ => some { mtime := 5, body := "cached" }) 10
      (fun _ => TransportResult.resp 200 "fresh") "u" "" 100
      { mtime := 5, body := "cached" } rfl).1 (by decide) true
  have h2 := (fetch_cache_ttl_property (fun u => u) "d"
      (fun _ => some { mtime := 5, body := "cached" }) 10
      (fun _ => TransportResult.resp 200 "fresh") "u" "" 2
      { mtime := 5, body := "cached" } rfl).2 (by decide) 200 "fresh" rfl (by decide)
  exact ⟨h1, h2.1, h2.2.1, h2.2.2⟩

/-- C2 (amended): the per-resort loop produces exactly one record per
configured resort, in order, whatever happens (even an exception escaping
`process_resort` yields a stale placeholder); and whenever the plain or
rendered fetch raises `FetchError`, or parsing returns a failed outcome,
the record is stale and carries the previous record's operations and snow
facts when a previous record exists, and all-unknown facts when none does.
(The rendering-engine-unavailable path is excluded: there the facts stay
unknown and the previous record is not consulted — see the
counterexample and C10.) -/
theorem orchestrator_fallback (cfgs : List ResortConfig)
    (envOf : ResortConfig → OrchestratorEnv)
    (crash : ResortConfig → Option String)
    (cfg : ResortConfig) (env : OrchestratorEnv) :
    ((update_records cfgs envOf crash).map (fun r => r.slug) =
      cfgs.map (fun c => c.slug)) ∧
    (∀ e : String,
      (requires_headless cfg.kind = true → env.has_playwright = true) →
      (if requires_headless cfg.kind then env.fetch_headless_result
       else env.fetch_result) = Except.error e →
      (process_resort cfg env).1.stale = true ∧
      (∀ prev, env.existing = some prev →
        (process_resort cfg env).1.ops = prev.ops ∧
        (process_resort cfg env).1.snow = prev.snow) ∧
      (env.existing = none →
        (process_resort cfg env).1.ops = {} ∧
        (process_resort cfg env).1.snow = {})) ∧
    (∀ html : String,
      (requires_headless cfg.kind = true → env.has_playwright = true) →
      (if requires_headless cfg.kind then env.fetch_headless_result
       else env.fetch_result) = Except.ok html →
      (env.adapter_result html).success = false →
      (process_resort cfg env).1.stale = true ∧
      (∀ prev, env.existing = some prev →
        (process_resort cfg env).1.ops = prev.ops ∧
        (process_resort cfg env).1.snow = prev.snow) ∧
      (env.existing = none →
        (process_resort cfg env).1.ops = {} ∧
        (process_resort cfg env).1.snow = {})) := by
  refine ⟨?_, ?_, ?_⟩
  · induction cfgs with
    | nil => simp [update_records]
    | cons c rest ih =>
      simp only [update_records, List.map_cons, List.map_map] at ih ⊢
      refine congrArg₂ List.cons ?_ ih
      cases crash c <;> rfl
  · intro e hpw hfetch
    have hcond : ¬(requires_headless cfg.kind = true ∧
        env.has_playwright = false) := by
      rintro ⟨h1, h2⟩
      rw [hpw h1] at h2
      exact Bool.noConfusion h2
    have htry : process_resort_try cfg env = Except.error e := by
      simp [process_resort_try, hcond, hfetch, Except.bind]
    cases hex : env.existing with
    | none => refine ⟨?_, ?_, ?_⟩ <;> simp [process_resort, htry, hex]
    | some prev => refine ⟨?_, ?_, ?_⟩ <;> simp [process_resort, htry, hex]
  · intro html hpw hfetch hfail
    have hcond : ¬(requires_headless cfg.kind = true ∧
        env.has_playwright = false) := by
      rintro ⟨h1, h2⟩
      rw [hpw h1] at h2
      exact Bool.noConfusion h2
    cases hex : env.existing with
    | none =>
      have htry : process_resort_try cfg env = Except.ok (true, {}, {}, true) := by
        simp [process_resort_try, hcond, hfetch, hfail, hex, Except.bind]
      refine ⟨?_, ?_, ?_⟩ <;> simp [process_resort, htry, hex]
    | some prev =>
      have htry : process_resort_try cfg env =
          Except.ok (true, prev.ops, prev.snow, true) := by
        simp [process_resort_try, hcond, hfetch, hfail, hex, Except.bind]
      refine ⟨?_, ?_, ?_⟩ <;> simp [process_resort, htry, hex]

/-- Witness for C2: a generic-kind resort whose plain fetch raises, with a
previous record on disk, gets a stale record carrying that record's
operations facts. -/
theorem orchestrator_fallback_witness :
    (process_resort plainCfgFx fetchFailEnvFx).1.stale = true ∧
    (process_resort plainCfgFx fetchFailEnvFx).1.ops = prevRecordFx.ops := by
  have h := (orchestrator_fallback [] (fun _ => fetchFailEnvFx) (fun _ => none)
      plainCfgFx fetchFailEnvFx).2.1 "FetchError"
    (fun hcontra => absurd hcontra (by decide)) rfl
  exact ⟨h.1, (h.2.1 prevRecordFx rfl).1⟩

/-- C2 counterexample: a rendering-required resort with the rendering
engine unavailable is a live-acquisition failure (the record is marked
stale, no markup is obtained), a previously published record exists, and
yet the new record's operations facts are not the previous record's — the
carry-forward the claim asserts does not happen on this path. -/
theorem fallback_skipped_when_headless_unavailable :
    (process_resort headlessCfgFx headlessEnvFx).1.stale = true ∧
    headlessEnvFx.existing = some prevRecordFx ∧
    (process_resort headlessCfgFx headlessEnvFx).1.ops ≠ prevRecordFx.ops := by
  refine ⟨by decide, by decide, by decide⟩

/-- C10: for a resort whose kind is in the headless-required set, if the
rendering engine is unavailable the orchestrator produces a record with
staleness true and all operations and snow facts at their unknown
defaults, and the last-known-good store is not consulted. -/
theorem headless_unavailable_no_fallback (cfg : ResortConfig)
    (env : OrchestratorEnv) (hk : requires_headless cfg.kind = true)
    (hp : env.has_playwright = false) :
    (process_resort cfg env).1.stale = true ∧
    (process_resort cfg env).1.ops = {} ∧
    (process_resort cfg env).1.snow = {} ∧
    (process_resort cfg env).2 = false := by
  have htry : process_resort_try cfg env = Except.ok (true, {}, {}, false) := by
    simp [process_resort_try, hk, hp]
  refine ⟨?_, ?_, ?_, ?_⟩ <;> simp [process_resort, htry]

/-- Witness for C10 at the concrete boreal fixture. -/
theorem headless_unavailable_no_fallback_witness :
    (process_resort headlessCfgFx headlessEnvFx).1.ops = {} ∧
    (process_resort headlessCfgFx headlessEnvFx).2 = false :=
  ⟨(headless_unavailable_no_fallback headlessCfgFx headlessEnvFx
      (by decide) rfl).2.1,
   (headless_unavailable_no_fallback headlessCfgFx headlessEnvFx
      (by decide) rfl).2.2.2⟩

/-- C8 (code bug): when both protocol steps succeed but the first forecast
period carries a string-typed temperature, the `float(...)` conversion
raises `ValueError`, which is not a `FetchError` and escapes
`fetch_weather` — contradicting the never-raises contract; by contrast, a
`FetchError` in the points step degrades to an empty `Weather` with only
the points URL resolved, as the claim describes. -/
theorem fetch_weather_string_temp_escapes :
    fetch_weather nwsBadEnvFx 39 (-120) = Except.error "ValueError" ∧
    fetch_weather nwsDownEnvFx 39 (-120) =
      Except.ok ({}, nws_points_url 39 (-120), none) :=
  ⟨rfl, rfl⟩
